import Mathlib

/-!
Verification development for the OikosNomos forecasting engine
(`forecast-service/model.py`, class `ForecastModel`).

Shallow embedding conventions:
* Python floats are modelled as exact rationals (`ℚ`); none of the
  properties verified here depends on floating-point rounding.
* Timestamps are modelled as natural numbers counting whole hours from a
  fixed epoch; `pandas` timestamp arithmetic `t + timedelta(hours = k)`
  becomes `t + k`, and `.dt.hour` becomes `t % 24`.
* Operations whose numeric content is irrelevant to every verified
  property but which are not rational-valued (`np.sin`, `np.cos`,
  `np.sqrt`, the sample standard deviation, the fitted
  `RandomForestRegressor` predictor, the day-of-week and month calendar
  extractors, `datetime.now`) are abstracted as fields of an `Env`
  record; every theorem is proved for all such environments.
* A `pandas.DataFrame` of consumption rows becomes `List ConsRow`; a
  missing (unparsable, `NaT`) timestamp is `Option.none` and is dropped
  exactly where `model.py` drops it.  A weather `DataFrame` is a list of
  rows plus a flag recording whether a `temp_c` column is present.
* Raised Python exceptions become `Except.error`; `ForecastModel.load`
  catches every exception internally, which the embedding renders as the
  function returning `Except.ok false` on undeserializable bytes.
-/

/-- Python exceptions raised by the engine or by the libraries it calls.
Both raise sites relevant here (`raise ValueError("Model not loaded")`
in `predict`, and scikit-learn rejecting a zero-sample design matrix in
`fit`) raise Python `ValueError`. -/
inductive PyErr where
  | valueError (msg : String)
deriving DecidableEq, Repr

/-- One row of the consumption `DataFrame` given to the engine:
a `timestamp` (in hours; `none` models an unparsable value that
`pd.to_datetime(..., errors := coerce)` turns into `NaT`) and the
`total_kwh` value.  The embedding fixes the `total_kwh` column as
present; the `avg_power_w / 1000` fallback target of `train` is not
exercised by any verified property. -/
structure ConsRow where
  timestamp : Option ℕ
  total_kwh : ℚ
deriving DecidableEq, Repr

/-- One row of the weather `DataFrame`: timestamp, temperature, humidity. -/
structure WRow where
  timestamp : ℕ
  temp_c : ℚ
  humidity : ℚ
deriving DecidableEq, Repr

/-- The weather `DataFrame`: its rows plus whether a `temp_c` column is
present (`model.py` line 85 tests `not weather.empty and 'temp_c' in
weather.columns`; column presence is a frame-level fact, so it is carried
as a flag). -/
structure WeatherDF where
  rows : List WRow
  hasTempCol : Bool
deriving DecidableEq, Repr

/-- A fully built feature row, after the fill step of `create_features`:
the original `timestamp` and `total_kwh` columns plus the 13 engineered
feature columns, all numeric. -/
structure FeatureRow where
  timestamp : ℕ
  total_kwh : ℚ
  hour : ℚ
  day_of_week : ℚ
  month : ℚ
  is_weekend : ℚ
  hour_sin : ℚ
  hour_cos : ℚ
  lag_1h : ℚ
  lag_24h : ℚ
  lag_168h : ℚ
  rolling_mean_24h : ℚ
  rolling_std_24h : ℚ
  temp_c : ℚ
  humidity : ℚ
deriving DecidableEq, Repr

/-- Ambient functions the Python code takes from `numpy`, `pandas`,
`scikit-learn` and `datetime`.  Their numeric content is irrelevant to
every verified property, so they are kept abstract and every theorem is
universally quantified over them (concrete trivial instantiations are
used in witnesses). -/
structure Env where
  /-- float value of `np.sin(2 * np.pi * h / 24)` for an hour `h`. -/
  sinQ : ℕ → ℚ
  /-- float value of `np.cos(2 * np.pi * h / 24)` for an hour `h`. -/
  cosQ : ℕ → ℚ
  /-- `pandas` `dayofweek` of a timestamp (Monday = 0, ..., Sunday = 6). -/
  dowOf : ℕ → ℕ
  /-- `pandas` `month` of a timestamp (1-12). -/
  monthOf : ℕ → ℕ
  /-- sample standard deviation (ddof = 1) of a window of two or more
  values, as computed in floating point by `pandas` `rolling.std`. -/
  stdQ : List ℚ → ℚ
  /-- `np.sqrt` as used for the RMSE metric. -/
  sqrtQ : ℚ → ℚ
  /-- the predictor fitted by `RandomForestRegressor(...).fit(X, y)` on a
  nonempty design matrix: a map from a feature vector to a prediction. -/
  fitRF : List (List ℚ) → List ℚ → (List ℚ → ℚ)
  /-- `datetime.now().isoformat()`. -/
  nowIso : String

/-- Engine state: the mutable fields of a `ForecastModel` instance.
`model = none` is Python `self.model is None` (not loaded); a loaded
model is abstracted as the vector-to-prediction function it computes. -/
structure Engine where
  model : Option (List ℚ → ℚ)
  version : String
  trained_at : Option String
  metrics : List (String × ℚ)
  feature_names : List String

/-- `ForecastModel.__init__`: no model, version `"v1.0"`, empty metrics
and feature names. -/
def initEngine : Engine :=
  { model := none, version := "v1.0", trained_at := none,
    metrics := [], feature_names := [] }

/-- `ForecastModel.is_loaded`. -/
def isLoaded (e : Engine) : Bool :=
  e.model.isSome

/-- The fixed ordered feature-name list assigned by `train`
(`model.py` lines 121-126). -/
def featureNames13 : List String :=
  ["hour", "day_of_week", "month", "is_weekend",
   "hour_sin", "hour_cos", "temp_c", "humidity",
   "lag_1h", "lag_24h", "lag_168h",
   "rolling_mean_24h", "rolling_std_24h"]

/-- Column lookup `row[name]` on a feature row, used for
`last_row[self.feature_names]` / `train_df[self.feature_names]`.  The
embedding is only applied to names that are columns of the frame (as in
the source, where the names come from `featureNames13`); an unknown name
maps to 0 rather than modelling the `pandas` `KeyError`. -/
def fieldValue (r : FeatureRow) : String → ℚ
  | "hour" => r.hour
  | "day_of_week" => r.day_of_week
  | "month" => r.month
  | "is_weekend" => r.is_weekend
  | "hour_sin" => r.hour_sin
  | "hour_cos" => r.hour_cos
  | "temp_c" => r.temp_c
  | "humidity" => r.humidity
  | "lag_1h" => r.lag_1h
  | "lag_24h" => r.lag_24h
  | "lag_168h" => r.lag_168h
  | "rolling_mean_24h" => r.rolling_mean_24h
  | "rolling_std_24h" => r.rolling_std_24h
  | _ => 0

/-- Selection of the feature columns in order: `row[names]` flattened to
the numeric vector handed to the regressor. -/
def selectFeatures (names : List String) (r : FeatureRow) : List ℚ :=
  names.map (fieldValue r)

/-- Timestamp parsing and `NaT` dropping (`model.py` lines 53-62): keep
the rows whose timestamp parsed, as `(timestamp, total_kwh)` pairs. -/
def cleanRows (data : List ConsRow) : List (ℕ × ℚ) :=
  data.filterMap (fun r => r.timestamp.map (fun t => (t, r.total_kwh)))

/-- `df.sort_values(timestamp)` (`model.py` line 64): sort ascending by
timestamp.  The source uses an unstable quicksort; the embedding uses a
stable insertion sort, which agrees with it on every input without
duplicate timestamps (the only inputs any property here examines). -/
def sortRows (l : List (ℕ × ℚ)) : List (ℕ × ℚ) :=
  List.insertionSort (fun a b => a.1 ≤ b.1) l

/-- Mean of a list (`np.mean`); division by zero on an empty list yields
0 in `ℚ` where `numpy` yields `NaN` — no verified property evaluates the
mean of an empty window (rolling windows have `min_periods = 1`). -/
def meanQ (l : List ℚ) : ℚ :=
  l.sum / l.length

/-- The trailing rolling window of width 24 ending at row `i`
(`rolling(window := 24, min_periods := 1)`): rows `max 0 (i-23) .. i`. -/
def window24 (kwh : List ℚ) (i : ℕ) : List ℚ :=
  (kwh.take (i + 1)).drop (i + 1 - 24)

/-- The lag-`k` column (`df[total_kwh].shift(k)`): value of row `i - k`,
missing (`NaN`) for the first `k` rows. -/
def lagCol (kwh : List ℚ) (k : ℕ) : List (Option ℚ) :=
  (List.range kwh.length).map
    (fun i => if k ≤ i then some (kwh.getD (i - k) 0) else none)

/-- The `rolling_mean_24h` column: always present (`min_periods = 1`). -/
def rollMeanCol (kwh : List ℚ) : List (Option ℚ) :=
  (List.range kwh.length).map (fun i => some (meanQ (window24 kwh i)))

/-- The `rolling_std_24h` column: the sample standard deviation (ddof=1)
of the trailing window, `NaN` (missing) on a window of fewer than two
rows. -/
def rollStdCol (env : Env) (kwh : List ℚ) : List (Option ℚ) :=
  (List.range kwh.length).map
    (fun i => if 2 ≤ (window24 kwh i).length
              then some (env.stdQ (window24 kwh i)) else none)

/-- `weather.drop_duplicates(timestamp)`: keep the first row of each
timestamp. -/
def dedupAux (seen : List ℕ) : List WRow → List WRow
  | [] => []
  | r :: rs =>
      if r.timestamp ∈ seen then dedupAux seen rs
      else r :: dedupAux (r.timestamp :: seen) rs

/-- Distance between two timestamps. -/
def absDist (a b : ℕ) : ℕ :=
  max a b - min a b

/-- The weather row nearest in time to `t`
(`pd.merge_asof(..., direction := nearest)`); `none` on an empty list.
Tie-breaking between equidistant rows is not examined by any verified
property. -/
def nearestW (t : ℕ) : List WRow → Option WRow
  | [] => none
  | r :: rs =>
      match nearestW t rs with
      | none => some r
      | some best =>
          if absDist r.timestamp t ≤ absDist best.timestamp t
          then some r else some best

/-- The merged `temp_c` column (`model.py` lines 85-97): nearest-match
weather when weather is nonempty and has a `temp_c` column, otherwise
the constant default 20.0 on every row. -/
def tempCol (weather : WeatherDF) (ts : List ℕ) : List (Option ℚ) :=
  if weather.rows ≠ [] ∧ weather.hasTempCol = true then
    ts.map (fun t => (nearestW t (dedupAux [] weather.rows)).map (fun w => w.temp_c))
  else
    List.replicate ts.length (some 20)

/-- The merged `humidity` column, defaulting to 50.0 (same branch
structure as `tempCol`). -/
def humCol (weather : WeatherDF) (ts : List ℕ) : List (Option ℚ) :=
  if weather.rows ≠ [] ∧ weather.hasTempCol = true then
    ts.map (fun t => (nearestW t (dedupAux [] weather.rows)).map (fun w => w.humidity))
  else
    List.replicate ts.length (some 50)

/-- First present value of a column suffix, used by backward fill. -/
def nextSome : List (Option ℚ) → Option ℚ
  | [] => none
  | some v :: _ => some v
  | none :: xs => nextSome xs

/-- `df.bfill()` on one column: each missing entry takes the next
present value below it. -/
def bfill : List (Option ℚ) → List (Option ℚ)
  | [] => []
  | x :: xs => (x.orElse (fun _ => nextSome xs)) :: bfill xs

/-- `df.ffill()` on one column, carrying the last present value seen. -/
def ffillFrom (prev : Option ℚ) : List (Option ℚ) → List (Option ℚ)
  | [] => []
  | x :: xs =>
      let y := x.orElse (fun _ => prev)
      y :: ffillFrom y xs

/-- The fill step `df.bfill().ffill().fillna(0)` on one column
(`model.py` line 100). -/
def fillColumn (c : List (Option ℚ)) : List ℚ :=
  (ffillFrom none (bfill c)).map (fun o => o.getD 0)

/-- `ForecastModel.create_features` (`model.py` lines 28-102): drop
unparsable timestamps, sort by timestamp, derive calendar and cyclical
fields, lag and rolling columns, merge weather (or constant defaults),
and fill remaining gaps.  The `timestamp`-column-missing `ValueError`
(line 44) is outside the embedding: the `ConsRow` type carries the
column. -/
def createFeatures (env : Env) (data : List ConsRow) (weather : WeatherDF) :
    List FeatureRow :=
  let sorted := sortRows (cleanRows data)
  let ts := sorted.map (fun p => p.1)
  let kwh := sorted.map (fun p => p.2)
  let n := sorted.length
  let lag1 := fillColumn (lagCol kwh 1)
  let lag24 := fillColumn (lagCol kwh 24)
  let lag168 := fillColumn (lagCol kwh 168)
  let rmean := fillColumn (rollMeanCol kwh)
  let rstd := fillColumn (rollStdCol env kwh)
  let temps := fillColumn (tempCol weather ts)
  let hums := fillColumn (humCol weather ts)
  (List.range n).map (fun i =>
    let t := ts.getD i 0
    { timestamp := t
      total_kwh := kwh.getD i 0
      hour := ((t % 24 : ℕ) : ℚ)
      day_of_week := (env.dowOf t : ℚ)
      month := (env.monthOf t : ℚ)
      is_weekend := if env.dowOf t = 5 ∨ env.dowOf t = 6 then 1 else 0
      hour_sin := env.sinQ (t % 24)
      hour_cos := env.cosQ (t % 24)
      lag_1h := lag1.getD i 0
      lag_24h := lag24.getD i 0
      lag_168h := lag168.getD i 0
      rolling_mean_24h := rmean.getD i 0
      rolling_std_24h := rstd.getD i 0
      temp_c := temps.getD i 0
      humidity := hums.getD i 0 })

/-- The calendar/cyclical update of the seed row for forecast time `ft`
(`model.py` lines 204-209): overwrite `hour`, `day_of_week`, `month`,
`is_weekend`, `hour_sin`, `hour_cos`; every other field is kept. -/
def updTimeFields (env : Env) (ft : ℕ) (r : FeatureRow) : FeatureRow :=
  { r with
    hour := ((ft % 24 : ℕ) : ℚ)
    day_of_week := (env.dowOf ft : ℚ)
    month := (env.monthOf ft : ℚ)
    is_weekend := if env.dowOf ft = 5 ∨ env.dowOf ft = 6 then 1 else 0
    hour_sin := env.sinQ (ft % 24)
    hour_cos := env.cosQ (ft % 24) }

/-- The iterative forecasting loop of `predict` (`model.py` lines
201-219).  `h` is the current loop index, `k` the number of iterations
left, `row` the mutable `last_row`.  Each step updates the time fields
for `t0 + h + 1`, runs the model, appends `max 0 pred`, and writes the
raw `pred` back into `lag_1h` when that name is among the features. -/
def predictLoop (env : Env) (f : List ℚ → ℚ) (names : List String)
    (t0 : ℕ) : ℕ → ℕ → FeatureRow → List ℚ
  | _, 0, _ => []
  | h, k + 1, row =>
      let row1 := updTimeFields env (t0 + h + 1) row
      let pred := f (selectFeatures names row1)
      let row2 := if "lag_1h" ∈ names then { row1 with lag_1h := pred } else row1
      max 0 pred :: predictLoop env f names t0 (h + 1) k row2

/-- The state of `last_row` at the start of iteration `i` of the loop
(so `stateAt 0` is the seed row `df.iloc[-1]`). -/
def stateAt (env : Env) (f : List ℚ → ℚ) (names : List String)
    (t0 : ℕ) (row0 : FeatureRow) : ℕ → FeatureRow
  | 0 => row0
  | i + 1 =>
      let row1 := updTimeFields env (t0 + i + 1) (stateAt env f names t0 row0 i)
      let pred := f (selectFeatures names row1)
      if "lag_1h" ∈ names then { row1 with lag_1h := pred } else row1

/-- The raw model output at iteration `i` of the loop: the value of
`self.model.predict(X)[0]` before the non-negativity clip. -/
def rawAt (env : Env) (f : List ℚ → ℚ) (names : List String)
    (t0 : ℕ) (row0 : FeatureRow) (i : ℕ) : ℚ :=
  f (selectFeatures names (updTimeFields env (t0 + i + 1)
      (stateAt env f names t0 row0 i)))

/-- `ForecastModel.predict` (`model.py` lines 167-220): raise
`ValueError` when not loaded; build features; return `horizon_hours`
zeros when the feature frame is empty; otherwise run the iterative loop
from the last feature row, with `t0` its timestamp.  `horizon_hours` is
an `ℤ` because the source performs no validation on it; `[0.0] *
horizon_hours` and `range(horizon_hours)` both clamp a negative value to
an empty sequence, which `Int.toNat` renders. -/
def predict (e : Engine) (env : Env) (data : List ConsRow)
    (weather : WeatherDF) (horizon : ℤ) : Except PyErr (List ℚ) :=
  match e.model with
  | none => .error (.valueError "Model not loaded")
  | some f =>
      let df := createFeatures env data weather
      match df.getLast? with
      | none => .ok (List.replicate horizon.toNat 0)
      | some seed =>
          .ok (predictLoop env f e.feature_names seed.timestamp 0
                horizon.toNat seed)

/-- The chronological 80/20 split of `train` (`model.py` lines
128-131): `split_idx = int(len(df) * 0.8)`, which equals
`⌊4·n / 5⌋` exactly (`0.8·n` rounded to a double never crosses an
integer boundary for any frame size arising here), then a `take`/`drop`
with no shuffling. -/
def trainValSplit (df : List FeatureRow) : List FeatureRow × List FeatureRow :=
  (df.take (4 * df.length / 5), df.drop (4 * df.length / 5))

/-- `RandomForestRegressor(...).fit(X, y)`: scikit-learn raises
`ValueError` on a design matrix with zero samples; on a nonempty matrix
the fitted predictor is the abstract `Env.fitRF`. -/
def fitModel (env : Env) (X : List (List ℚ)) (y : List ℚ) :
    Except PyErr (List ℚ → ℚ) :=
  if X = [] then .error (.valueError "Found array with 0 sample(s)")
  else .ok (env.fitRF X y)

/-- The holdout metrics of `train` (`model.py` lines 149-159): RMSE,
MAE, MAPE with the `1e-8` epsilon. -/
def metricsOf (env : Env) (f : List ℚ → ℚ) (names : List String)
    (valDf : List FeatureRow) : List (String × ℚ) :=
  let yv := valDf.map (fun r => r.total_kwh)
  let yp := valDf.map (fun r => f (selectFeatures names r))
  let pairs := yv.zip yp
  let rmse := env.sqrtQ (meanQ (pairs.map (fun p => (p.1 - p.2) * (p.1 - p.2))))
  let mae := meanQ (pairs.map (fun p => |p.1 - p.2|))
  let mape := meanQ (pairs.map (fun p => |(p.1 - p.2) / (p.1 + 1 / 100000000)|)) * 100
  [("rmse", rmse), ("mae", mae), ("mape", mape)]

/-- `ForecastModel.train` (`model.py` lines 104-165): build features,
set the fixed feature-name list, split chronologically, fit, compute
holdout metrics, update the engine state.  On the fitting failure the
exception propagates with `feature_names` already assigned (the source
also leaves an unfitted estimator object in `self.model` at that point,
which the embedding does not track — no verified property reads the
model field after a failed training run). -/
def train (e : Engine) (env : Env) (data : List ConsRow)
    (weather : WeatherDF) : Engine × Except PyErr (List (String × ℚ)) :=
  let df := createFeatures env data weather
  let names := featureNames13
  let s := trainValSplit df
  let X := s.1.map (selectFeatures names)
  let y := s.1.map (fun r => r.total_kwh)
  match fitModel env X y with
  | .error err => ({ e with feature_names := names }, .error err)
  | .ok f =>
      let m := metricsOf env f names s.2
      ({ e with model := some f, feature_names := names,
                metrics := m, trained_at := some env.nowIso },
       .ok m)

/-- The artifact dict persisted by `save` (`model.py` lines 226-232). -/
structure Artifact where
  model : Option (List ℚ → ℚ)
  version : String
  trained_at : Option String
  metrics : List (String × ℚ)
  feature_names : List String

/-- Persisted bytes at the model path: either a valid `joblib` dump of
an artifact dict, or bytes that `joblib.load` cannot deserialize. -/
inductive Bytes where
  | blob (a : Artifact)
  | corrupt

/-- `joblib.load` on the persisted bytes, as a partial decoder: `none`
models the raise inside the `try` block of `load`. -/
def deserialize : Bytes → Option Artifact
  | .blob a => some a
  | .corrupt => none

/-- `ForecastModel.save` (`model.py` lines 222-235): overwrite the store
with the dump of the full bundle (the `mkdir` of the parent directory
has no observable effect in the embedding). -/
def save (e : Engine) (_store : Option Bytes) : Option Bytes :=
  some (.blob { model := e.model, version := e.version,
                trained_at := e.trained_at, metrics := e.metrics,
                feature_names := e.feature_names })

/-- `ForecastModel.load` (`model.py` lines 237-254): return `false` when
no bytes are persisted; on persisted bytes, deserialize and install all
five fields, returning `true`; a deserialization failure is caught
inside the function (logged) and yields `false` with the engine
unchanged.  The `Except` layer records that the function itself never
raises. -/
def load (e : Engine) (store : Option Bytes) : Engine × Except PyErr Bool :=
  match store with
  | none => (e, .ok false)
  | some b =>
      match deserialize b with
      | none => (e, .ok false)
      | some a =>
          ({ model := a.model, version := a.version,
             trained_at := a.trained_at, metrics := a.metrics,
             feature_names := a.feature_names },
           .ok true)

/-- A trivial environment used to instantiate witnesses. -/
def env0 : Env :=
  { sinQ := fun _ => 0, cosQ := fun _ => 0,
    dowOf := fun t => t / 24 % 7, monthOf := fun _ => 1,
    stdQ := fun _ => 0, sqrtQ := fun _ => 0,
    fitRF := fun _ _ => fun _ => 0, nowIso := "2026-01-01T00:00:00" }

/-- An empty weather frame (no rows, no `temp_c` column). -/
def emptyWeather : WeatherDF :=
  { rows := [], hasTempCol := false }

/-- A concrete loaded engine used in witnesses and counterexamples. -/
def loadedEngine : Engine :=
  { model := some (fun _ => 0), version := "v1.0", trained_at := none,
    metrics := [], feature_names := featureNames13 }

/-! ## Helper lemmas -/

/-- Feature construction on an empty consumption frame yields an empty
feature frame. -/
theorem createFeatures_nil (env : Env) (weather : WeatherDF) :
    createFeatures env [] weather = [] := rfl

/-- The number of feature rows equals the number of cleaned, sorted
consumption rows. -/
theorem createFeatures_length (env : Env) (data : List ConsRow)
    (weather : WeatherDF) :
    (createFeatures env data weather).length =
      (sortRows (cleanRows data)).length := by
  simp [createFeatures]

/-! ## C2: empty consumption series -/

/-- Claim C2: for every loaded model and every horizon, `predict` on an
empty consumption series (whose feature matrix is therefore empty)
returns a vector of `horizon_hours` zeros and raises no exception. -/
theorem predict_empty_series_zeros (e : Engine) (env : Env)
    (weather : WeatherDF) (f : List ℚ → ℚ) (H : ℤ)
    (hf : e.model = some f) :
    predict e env [] weather H = .ok (List.replicate H.toNat 0) := by
  simp [predict, hf, createFeatures_nil]

/-- Witness for C2, the spec's scenario: loaded model, empty series,
horizon 5 gives `[0, 0, 0, 0, 0]` with no exception. -/
theorem predict_empty_series_zeros_witness :
    predict loadedEngine env0 [] emptyWeather 5 =
      .ok [0, 0, 0, 0, 0] := by
  have h := predict_empty_series_zeros loadedEngine env0 emptyWeather
    (fun _ => 0) 5 rfl
  simpa using h

/-! ## C3: no validation of the horizon -/

/-- Counterexample to claim C3: with a loaded model and
`horizon_hours = 0 < 1`, `predict` raises nothing and returns the
result `[]` — there is no `ValidationError` (nor any horizon check) in
the code. -/
theorem predict_no_horizon_validation_cex :
    predict loadedEngine env0 [] emptyWeather 0 = .ok [] := rfl

/-- Claim C3 as amended: `predict` performs no validation of
`horizon_hours`; for every `horizon_hours < 1` and loaded model it
returns the empty list (the horizon clamped to zero iterations) instead
of failing. -/
theorem predict_horizon_lt_one_returns_empty (e : Engine) (env : Env)
    (data : List ConsRow) (weather : WeatherDF) (f : List ℚ → ℚ) (H : ℤ)
    (hf : e.model = some f) (hH : H < 1) :
    predict e env data weather H = .ok [] := by
  have h0 : H.toNat = 0 := by omega
  simp only [predict, hf, h0]
  cases (createFeatures env data weather).getLast? <;>
    simp [predictLoop]

/-- Witness for the amended C3 at `horizon_hours = -3`. -/
theorem predict_horizon_lt_one_returns_empty_witness :
    predict loadedEngine env0 [] emptyWeather (-3) = .ok [] :=
  predict_horizon_lt_one_returns_empty loadedEngine env0 [] emptyWeather
    (fun _ => 0) (-3) rfl (by norm_num)

/-! ## C4: training on an empty feature matrix fails -/

/-- Claim C4: whenever the feature matrix built by `train` is empty,
training fails with the data error raised for a zero-sample design
matrix (a Python `ValueError`, the exception class the engine also uses
for its own data validation — the spec's `DataError`), and no metrics
are returned and no model is fitted. -/
theorem train_empty_matrix_fails (e : Engine) (env : Env)
    (data : List ConsRow) (weather : WeatherDF)
    (hdf : createFeatures env data weather = []) :
    (train e env data weather).2 =
      .error (.valueError "Found array with 0 sample(s)") := by
  simp [train, hdf, trainValSplit, fitModel]

/-- Witness for C4: training on an empty consumption series. -/
theorem train_empty_matrix_fails_witness :
    (train initEngine env0 [] emptyWeather).2 =
      .error (.valueError "Found array with 0 sample(s)") :=
  train_empty_matrix_fails initEngine env0 [] emptyWeather rfl

/-! ## C5: load on missing or corrupt artifact -/

/-- Counterexample to claim C5: on persisted bytes that cannot be
deserialized, `load` does not raise a `LoadError` (or anything else) —
the exception is caught inside `load`, which returns the normal result
`false` with the engine unchanged, exactly as in the no-artifact case. -/
theorem load_corrupt_returns_false_cex :
    load initEngine (some Bytes.corrupt) = (initEngine, .ok false) := rfl

/-- Claim C5 as amended: `load` returns `false` (not an error) when
nothing has been persisted; and when persisted bytes cannot be
deserialized it catches the exception and again returns `false` rather
than raising, leaving every engine field unchanged (so a fresh engine
remains unloaded). -/
theorem load_missing_or_corrupt (e : Engine) (b : Bytes)
    (hb : deserialize b = none) :
    load e none = (e, .ok false) ∧ load e (some b) = (e, .ok false) := by
  constructor
  · rfl
  · simp [load, hb]

/-- Witness for the amended C5 on a fresh engine and corrupt bytes. -/
theorem load_missing_or_corrupt_witness :
    load initEngine none = (initEngine, .ok false) ∧
      load initEngine (some Bytes.corrupt) = (initEngine, .ok false) :=
  load_missing_or_corrupt initEngine Bytes.corrupt rfl

/-! ## C6: save/load round trip -/

/-- Claim C6: for every engine state, saving and then loading (into any
engine) restores `version`, `metrics`, and `feature_names` to exactly
the values that were saved, and the load reports success. -/
theorem save_load_roundtrip (e e2 : Engine) (st : Option Bytes) :
    ((load e2 (save e st)).1.version = e.version ∧
     (load e2 (save e st)).1.metrics = e.metrics ∧
     (load e2 (save e st)).1.feature_names = e.feature_names) ∧
    (load e2 (save e st)).2 = .ok true := by
  simp [save, load, deserialize]

/-- Unfolding equation for the loop state at a successor index. -/
theorem stateAt_succ (env : Env) (f : List ℚ → ℚ) (names : List String)
    (t0 : ℕ) (row0 : FeatureRow) (i : ℕ) :
    stateAt env f names t0 row0 (i + 1) =
      (let row1 := updTimeFields env (t0 + i + 1) (stateAt env f names t0 row0 i)
       let pred := f (selectFeatures names row1)
       if "lag_1h" ∈ names then { row1 with lag_1h := pred } else row1) := rfl

/-- The forecasting loop started at index `h` in state `stateAt h`
produces, step by step, the clipped raw predictions `max 0 (rawAt j)`. -/
theorem predictLoop_eq_map (env : Env) (f : List ℚ → ℚ)
    (names : List String) (t0 : ℕ) (row0 : FeatureRow) :
    ∀ k h, predictLoop env f names t0 h k (stateAt env f names t0 row0 h) =
      (List.range k).map (fun j => max 0 (rawAt env f names t0 row0 (h + j))) := by
  intro k
  induction k with
  | zero => intro h; rfl
  | succ k ih =>
      intro h
      have hstep :
          predictLoop env f names t0 h (k + 1)
              (stateAt env f names t0 row0 h) =
            max 0 (rawAt env f names t0 row0 h) ::
              predictLoop env f names t0 (h + 1) k
                (stateAt env f names t0 row0 (h + 1)) := rfl
      rw [hstep, ih (h + 1), List.range_succ_eq_map, List.map_cons,
        List.map_map]
      refine congr_arg₂ List.cons (by simp) ?_
      apply List.map_congr_left
      intro j hj
      have harg : h + 1 + j = h + (j + 1) := by omega
      rw [harg]
      rfl

/-- The whole loop output, from the seed row: element `j` is the clip of
the raw prediction at forecast time `t0 + j + 1`. -/
theorem predictLoop_from_seed (env : Env) (f : List ℚ → ℚ)
    (names : List String) (t0 : ℕ) (row0 : FeatureRow) (k : ℕ) :
    predictLoop env f names t0 0 k row0 =
      (List.range k).map (fun j => max 0 (rawAt env f names t0 row0 j)) := by
  have h := predictLoop_eq_map env f names t0 row0 k 0
  simpa using h

/-! ## C1: predict returns horizon_hours non-negative values -/

/-- Claim C1: for every loaded model and every `horizon_hours ≥ 1`,
`predict` returns a list of exactly `horizon_hours` values, every
element `≥ 0`; and when the feature frame is nonempty, the element at
zero-based position `i` is the (clipped) model output computed at
forecast time `t0 + (i + 1)` hours, `t0` being the seed row's timestamp
— that is, the elements correspond in order to `t0+1h, t0+2h, ...`. -/
theorem predict_horizon_spec (e : Engine) (env : Env) (data : List ConsRow)
    (weather : WeatherDF) (f : List ℚ → ℚ) (H : ℤ)
    (hf : e.model = some f) (h1 : 1 ≤ H) :
    ∃ out, predict e env data weather H = .ok out ∧
      (out.length : ℤ) = H ∧ (∀ x ∈ out, 0 ≤ x) ∧
      ∀ seed, (createFeatures env data weather).getLast? = some seed →
        out = (List.range H.toNat).map
          (fun i => max 0 (rawAt env f e.feature_names seed.timestamp seed i)) := by
  cases hL : (createFeatures env data weather).getLast? with
  | none =>
      refine ⟨List.replicate H.toNat 0, ?_, ?_, ?_, ?_⟩
      · simp [predict, hf, hL]
      · simp; omega
      · intro x hx
        rw [List.eq_of_mem_replicate hx]
      · intro seed hs
        simp at hs
  | some seed =>
      refine ⟨predictLoop env f e.feature_names seed.timestamp 0 H.toNat seed,
        ?_, ?_, ?_, ?_⟩
      · simp [predict, hf, hL]
      · rw [predictLoop_from_seed]
        simp
        omega
      · intro x hx
        rw [predictLoop_from_seed] at hx
        obtain ⟨j, hj, rfl⟩ := List.mem_map.mp hx
        exact le_max_left 0 _
      · intro seed2 hs2
        have hse : seed2 = seed := (Option.some.inj hs2).symm
        subst hse
        exact predictLoop_from_seed env f e.feature_names seed2.timestamp
          seed2 H.toNat

/-- A one-row consumption series used in witnesses. -/
def dataOne : List ConsRow := [{ timestamp := some 5, total_kwh := 7 }]

/-- Witness for C1 at a loaded model, a one-row series, horizon 3. -/
theorem predict_horizon_spec_witness :
    ∃ out, predict loadedEngine env0 dataOne emptyWeather 3 = .ok out ∧
      (out.length : ℤ) = 3 ∧ (∀ x ∈ out, 0 ≤ x) ∧
      ∀ seed, (createFeatures env0 dataOne emptyWeather).getLast? = some seed →
        out = (List.range (3 : ℤ).toNat).map
          (fun i => max 0 (rawAt env0 (fun _ => 0)
            loadedEngine.feature_names seed.timestamp seed i)) :=
  predict_horizon_spec loadedEngine env0 dataOne emptyWeather
    (fun _ => 0) 3 rfl (by norm_num)

/-! ## C8: frame condition of the forecasting loop -/

/-- The fields of `last_row` that the forecasting loop never writes:
`timestamp`, `total_kwh`, the weather fields, the far lags and the
rolling statistics. -/
def sameFrame (a b : FeatureRow) : Prop :=
  a.timestamp = b.timestamp ∧ a.total_kwh = b.total_kwh ∧
  a.temp_c = b.temp_c ∧ a.humidity = b.humidity ∧
  a.lag_24h = b.lag_24h ∧ a.lag_168h = b.lag_168h ∧
  a.rolling_mean_24h = b.rolling_mean_24h ∧
  a.rolling_std_24h = b.rolling_std_24h

/-- The time-field update leaves the frame fields unchanged. -/
theorem updTimeFields_frame (env : Env) (t : ℕ) (r : FeatureRow) :
    sameFrame (updTimeFields env t r) r := by
  exact ⟨rfl, rfl, rfl, rfl, rfl, rfl, rfl, rfl⟩

/-- Every loop state keeps the frame fields of the seed row. -/
theorem stateAt_frame (env : Env) (f : List ℚ → ℚ) (names : List String)
    (t0 : ℕ) (row0 : FeatureRow) (i : ℕ) :
    sameFrame (stateAt env f names t0 row0 i) row0 := by
  induction i with
  | zero => exact ⟨rfl, rfl, rfl, rfl, rfl, rfl, rfl, rfl⟩
  | succ i ih =>
      obtain ⟨h1, h2, h3, h4, h5, h6, h7, h8⟩ := ih
      rw [stateAt_succ]
      split_ifs with hm <;> exact ⟨h1, h2, h3, h4, h5, h6, h7, h8⟩

/-- Claim C8: across all iterations of `predict`'s loop, only the
calendar/cyclical fields and `lag_1h` are modified: the weather fields,
`lag_24h`, `lag_168h` and the rolling statistics (and the seed's
timestamp and consumption value) keep their seed values, both in every
inter-iteration state and in every time-updated row handed to the
model. -/
theorem predict_loop_frame_invariance (env : Env) (f : List ℚ → ℚ)
    (names : List String) (t0 : ℕ) (row0 : FeatureRow) (i t : ℕ)
    (r : FeatureRow) :
    sameFrame (updTimeFields env t r) r ∧
      sameFrame (stateAt env f names t0 row0 i) row0 :=
  ⟨updTimeFields_frame env t r, stateAt_frame env f names t0 row0 i⟩

/-! ## C10: raw prediction fed back, clipped prediction returned -/

/-- Claim C10: in `predict`'s loop the value written back into `lag_1h`
for the next iteration is the raw model output before the
non-negativity clip; so when the model outputs a negative value at
iteration `i`, the returned element is `0` while the `lag_1h` value used
by the next iteration is that raw output, strictly negative — the two
differ. -/
theorem lag_feedback_is_raw_prediction (env : Env) (f : List ℚ → ℚ)
    (names : List String) (t0 : ℕ) (row0 : FeatureRow) (i H : ℕ)
    (hmem : "lag_1h" ∈ names) (hiH : i < H)
    (hneg : rawAt env f names t0 row0 i < 0) :
    (predictLoop env f names t0 0 H row0)[i]? = some 0 ∧
      (stateAt env f names t0 row0 (i + 1)).lag_1h =
        rawAt env f names t0 row0 i ∧
      (stateAt env f names t0 row0 (i + 1)).lag_1h < 0 := by
  have hfeed : (stateAt env f names t0 row0 (i + 1)).lag_1h =
      rawAt env f names t0 row0 i := by
    rw [stateAt_succ]
    simp only [rawAt, if_pos hmem]
  refine ⟨?_, hfeed, by rw [hfeed]; exact hneg⟩
  rw [predictLoop_from_seed]
  rw [List.getElem?_map, List.getElem?_range hiH]
  simp [max_eq_left (le_of_lt hneg)]

/-- A concrete seed row used in witnesses. -/
def rowOne : FeatureRow :=
  { timestamp := 0, total_kwh := 0, hour := 0, day_of_week := 0,
    month := 1, is_weekend := 0, hour_sin := 0, hour_cos := 0,
    lag_1h := 0, lag_24h := 0, lag_168h := 0, rolling_mean_24h := 0,
    rolling_std_24h := 0, temp_c := 20, humidity := 50 }

/-- Witness for C10: a model that always outputs `-1`; the returned
element is `0` but the fed-back `lag_1h` is `-1 < 0`. -/
theorem lag_feedback_is_raw_prediction_witness :
    (predictLoop env0 (fun _ => -1) ["lag_1h"] 0 0 1 rowOne)[0]? = some 0 ∧
      (stateAt env0 (fun _ => -1) ["lag_1h"] 0 rowOne 1).lag_1h =
        rawAt env0 (fun _ => -1) ["lag_1h"] 0 rowOne 0 ∧
      (stateAt env0 (fun _ => -1) ["lag_1h"] 0 rowOne 1).lag_1h < 0 :=
  lag_feedback_is_raw_prediction env0 (fun _ => -1) ["lag_1h"] 0 rowOne 0 1
    (by simp) (by norm_num) (by norm_num [rawAt])

/-! ## C7: chronological 80/20 split -/

/-- Indexing the elements of a list by `range` recovers the list. -/
theorem map_getD_range {α : Type} (l : List α) (d : α) :
    (List.range l.length).map (fun i => l.getD i d) = l := by
  induction l with
  | nil => rfl
  | cons a l ih =>
      rw [List.length_cons, List.range_succ_eq_map, List.map_cons, List.map_map]
      refine congr_arg₂ List.cons rfl ?_
      have hc : ((fun i => (a :: l).getD i d) ∘ Nat.succ) =
          (fun i => l.getD i d) := by
        funext i
        rfl
      rw [hc, ih]

/-- The feature rows carry, in order, exactly the timestamps of the
cleaned, sorted consumption rows. -/
theorem createFeatures_map_timestamp (env : Env) (data : List ConsRow)
    (weather : WeatherDF) :
    (createFeatures env data weather).map (fun r => r.timestamp) =
      (sortRows (cleanRows data)).map (fun p => p.1) := by
  unfold createFeatures
  rw [List.map_map]
  have hlen : (sortRows (cleanRows data)).length =
      ((sortRows (cleanRows data)).map (fun p => p.1)).length := by simp
  rw [hlen]
  exact map_getD_range _ 0

/-- Cleaning a series whose timestamps all parse drops nothing. -/
theorem cleanRows_map_pairs (rows : List (ℕ × ℚ)) :
    cleanRows (rows.map (fun p => ConsRow.mk (some p.1) p.2)) = rows := by
  unfold cleanRows
  rw [List.filterMap_map]
  have hc : ((fun r => Option.map (fun t => (t, r.total_kwh)) r.timestamp) ∘
      (fun p => ConsRow.mk (some p.1) p.2)) = fun p : ℕ × ℚ => some p := by
    funext p
    rfl
  rw [hc, List.filterMap_some]

/-- Sorting a strictly increasing series leaves it unchanged. -/
theorem sortRows_sorted_eq (l : List (ℕ × ℚ))
    (h : l.Pairwise (fun a b => a.1 < b.1)) : sortRows l = l := by
  apply List.Sorted.insertionSort_eq
  exact h.imp (fun hab => le_of_lt hab)

/-- Claim C7: on a consumption series with strictly increasing (valid)
timestamps, `train`'s split is chronological with no shuffling: the
feature frame has one row per input row, the training slice is the
first `⌊0.8 · n⌋` rows and the holdout slice the remaining rows, and
every holdout row's timestamp is strictly after every training row's
timestamp. -/
theorem train_split_chronological (env : Env) (weather : WeatherDF)
    (rows : List (ℕ × ℚ)) (hinc : rows.Pairwise (fun a b => a.1 < b.1)) :
    ∀ df, df = createFeatures env
        (rows.map (fun p => ConsRow.mk (some p.1) p.2)) weather →
      df.length = rows.length ∧
      trainValSplit df =
        (df.take (4 * rows.length / 5), df.drop (4 * rows.length / 5)) ∧
      ∀ a ∈ (trainValSplit df).1, ∀ b ∈ (trainValSplit df).2,
        a.timestamp < b.timestamp := by
  intro df hdf
  have hts : df.map (fun r => r.timestamp) = rows.map (fun p => p.1) := by
    rw [hdf, createFeatures_map_timestamp, cleanRows_map_pairs,
      sortRows_sorted_eq rows hinc]
  have hlen : df.length = rows.length := by
    have := congrArg List.length hts
    simpa using this
  refine ⟨hlen, by rw [trainValSplit, hlen], ?_⟩
  have hpw : df.Pairwise (fun a b => a.timestamp < b.timestamp) := by
    have h1 : (df.map (fun r => r.timestamp)).Pairwise (· < ·) := by
      rw [hts]
      exact (List.pairwise_map).mpr hinc
    exact (List.pairwise_map).mp h1
  have hsplit : df = (trainValSplit df).1 ++ (trainValSplit df).2 := by
    rw [trainValSplit]
    exact (List.take_append_drop _ df).symm
  rw [hsplit] at hpw
  exact (List.pairwise_append.mp hpw).2.2

/-- A five-row strictly increasing series used in the C7 witness. -/
def rows5 : List (ℕ × ℚ) := [(0, 1), (1, 2), (2, 3), (3, 4), (4, 5)]

/-- The witness series has strictly increasing timestamps. -/
theorem rows5_pairwise : rows5.Pairwise (fun a b => a.1 < b.1) := by decide

/-- Witness for C7 on a concrete five-row hourly series. -/
theorem train_split_chronological_witness :
    (createFeatures env0 (rows5.map (fun p => ConsRow.mk (some p.1) p.2))
        emptyWeather).length = rows5.length ∧
      trainValSplit (createFeatures env0
          (rows5.map (fun p => ConsRow.mk (some p.1) p.2)) emptyWeather) =
        ((createFeatures env0 (rows5.map (fun p => ConsRow.mk (some p.1) p.2))
            emptyWeather).take (4 * rows5.length / 5),
         (createFeatures env0 (rows5.map (fun p => ConsRow.mk (some p.1) p.2))
            emptyWeather).drop (4 * rows5.length / 5)) ∧
      ∀ a ∈ (trainValSplit (createFeatures env0
          (rows5.map (fun p => ConsRow.mk (some p.1) p.2)) emptyWeather)).1,
        ∀ b ∈ (trainValSplit (createFeatures env0
          (rows5.map (fun p => ConsRow.mk (some p.1) p.2)) emptyWeather)).2,
          a.timestamp < b.timestamp := by
  exact train_split_chronological env0 emptyWeather rows5 rows5_pairwise _ rfl

/-! ## C9: constant weather defaults -/

/-- Backward fill does not change a column with no missing entries. -/
theorem bfill_replicate_some (n : ℕ) (q : ℚ) :
    bfill (List.replicate n (some q)) = List.replicate n (some q) := by
  induction n with
  | zero => rfl
  | succ n ih => simp [List.replicate_succ, bfill, Option.orElse, ih]

/-- Forward fill does not change a column with no missing entries. -/
theorem ffillFrom_replicate_some (p : Option ℚ) (n : ℕ) (q : ℚ) :
    ffillFrom p (List.replicate n (some q)) = List.replicate n (some q) := by
  induction n generalizing p with
  | zero => rfl
  | succ n ih => simp [List.replicate_succ, ffillFrom, Option.orElse, ih]

/-- The fill step maps a constant fully-present column to its values. -/
theorem fillColumn_replicate_some (n : ℕ) (q : ℚ) :
    fillColumn (List.replicate n (some q)) = List.replicate n q := by
  rw [fillColumn, bfill_replicate_some, ffillFrom_replicate_some]
  simp [List.map_replicate]

/-- Claim C9: for every nonempty consumption input, if the weather
input is empty or lacks a temperature column, every produced feature
row has `temp_c = 20.0` and `humidity = 50.0`. -/
theorem default_weather_constants (env : Env) (data : List ConsRow)
    (weather : WeatherDF) (hne : data ≠ [])
    (hw : weather.rows = [] ∨ weather.hasTempCol = false) :
    ∀ row ∈ createFeatures env data weather,
      row.temp_c = 20 ∧ row.humidity = 50 := by
  have hcond : ¬(weather.rows ≠ [] ∧ weather.hasTempCol = true) := by
    rcases hw with h | h
    · intro hc; exact hc.1 h
    · intro hc; rw [h] at hc; exact Bool.false_ne_true hc.2
  intro row hrow
  unfold createFeatures at hrow
  obtain ⟨i, hi, hmk⟩ := List.mem_map.mp hrow
  have hin : i < (sortRows (cleanRows data)).length := List.mem_range.mp hi
  subst hmk
  constructor
  · show (fillColumn (tempCol weather
        ((sortRows (cleanRows data)).map (fun p => p.1)))).getD i 0 = 20
    rw [tempCol, if_neg hcond, fillColumn_replicate_some,
      List.getD_eq_getElem?_getD, List.getElem?_replicate]
    simp [List.length_map, hin]
  · show (fillColumn (humCol weather
        ((sortRows (cleanRows data)).map (fun p => p.1)))).getD i 0 = 50
    rw [humCol, if_neg hcond, fillColumn_replicate_some,
      List.getD_eq_getElem?_getD, List.getElem?_replicate]
    simp [List.length_map, hin]

/-- Witness for C9: a one-row series with an empty weather frame. -/
theorem default_weather_constants_witness :
    dataOne ≠ [] ∧
      ∀ row ∈ createFeatures env0 dataOne emptyWeather,
        row.temp_c = 20 ∧ row.humidity = 50 :=
  ⟨by decide,
   default_weather_constants env0 dataOne emptyWeather (by decide)
     (Or.inl rfl)⟩
